import Mathlib

/-!
Shallow embedding of `openbb_platform/providers/intrinio/openbb_intrinio/models/balance_sheet.py`
(the Intrinio balance-sheet provider adapter of OpenBBTerminal).

The module has three stages:
  * query construction (`IntrinioBalanceSheetQueryParams` with the
    `validate_period` and `handle_symbol` field validators),
  * extraction (`IntrinioBalanceSheetFetcher.aextract_data`), and
  * transformation (`IntrinioBalanceSheetFetcher.transform_data` plus the
    `replace_zero` model validator of `IntrinioBalanceSheetData`).

The network boundary (the `get_data_one` and `amake_requests` helpers of
`openbb_core`, which live outside this file's source tree) is modelled as
explicit oracle functions, following the spec's description of them: the
listing request returns a list of period descriptors, and the batched
per-period requests return one response per URL, in request order.

Python dictionaries are modelled as association lists where a later binding
for a key shadows an earlier one (`dictGet` returns the value of the LAST
entry with the key, matching Python's assignment-overwrites semantics when
lookups are all that remain observable).  Python runtime values that flow
through `sub_dict` are modelled by `DictVal` (null, number, string); Python
number equality `v == 0` and truthiness are modelled by `pyEqZero` and
`pyTruthy`.
-/

set_option autoImplicit false

namespace OpenBBIntrinio

/-- A Python runtime value as it can appear in the vendor JSON and in the
`sub_dict` built by `transform_data`: `None`, a number, or a string.
Numbers are modelled by `Rat` (the code only renames and null-normalizes
values; no float rounding is observable in any property checked here). -/
inductive DictVal where
  | vnull : DictVal
  | vnum (q : Rat) : DictVal
  | vstr (s : String) : DictVal
  deriving DecidableEq, Repr

/-- Python truthiness of a `DictVal`: `None` and empty strings and the
number `0` are falsy, everything else is truthy. -/
def pyTruthy : DictVal → Bool
  | .vnull => false
  | .vnum q => !(q == 0)
  | .vstr s => !(s == "")

/-- Python `v == 0` on a `DictVal`: only the number zero compares equal to
`0` (strings never do, `None` never does). -/
def pyEqZero : DictVal → Bool
  | .vnull => false
  | .vnum q => q == 0
  | .vstr _ => false

/-- Value of an unsigned decimal digit string, `none` if any character is
not a digit or the string is empty. -/
def digitsToNat (cs : List Char) : Option Nat :=
  match cs with
  | [] => none
  | _ =>
    if cs.all Char.isDigit then
      some (cs.foldl (fun acc c => acc * 10 + (c.toNat - 48)) 0)
    else none

/-- Python `float(s)` on a plain decimal string literal (optional sign,
integer part, optional fractional part); `none` when the conversion would
raise `ValueError`.  Exotic accepted forms (exponents, `inf`, surrounding
whitespace) are not needed by any vendor payload and are treated as
failures. -/
def strToFloat (s : String) : Option Rat :=
  let cs := s.data
  let signed : Bool × List Char :=
    match cs with
    | '-' :: rest => (true, rest)
    | '+' :: rest => (false, rest)
    | _ => (false, cs)
  let body := signed.2
  let intPart := body.takeWhile Char.isDigit
  let rest := body.dropWhile Char.isDigit
  let mag : Option Rat :=
    match rest with
    | [] =>
      match digitsToNat intPart with
      | some n => some (n : Rat)
      | none => none
    | '.' :: frac =>
      if frac.all Char.isDigit ∧ ¬(intPart = [] ∧ frac = []) then
        let ip : Nat := (digitsToNat intPart).getD 0
        let fp : Nat := (digitsToNat frac).getD 0
        some ((ip : Rat) + (fp : Rat) / ((10 : Rat) ^ frac.length))
      else none
    | _ => none
  match mag with
  | some q => some (if signed.1 then -q else q)
  | none => none

/-- Python `float(v)` on a `DictVal`: numbers pass through, decimal strings
are parsed, everything else raises (modelled as `none`). -/
def pyFloat : DictVal → Option Rat
  | .vnull => none
  | .vnum q => some q
  | .vstr s => strToFloat s

/-- The per-line-item value coercion of `transform_data` (source lines
470-474): `float(sub_item["value"]) if sub_item["value"] and
sub_item["value"] != 0 else None`.  An error is a raised exception
(`float` on a non-numeric truthy value). -/
def lineValue (v : DictVal) : Except String (Option Rat) :=
  if pyTruthy v && !pyEqZero v then
    match pyFloat v with
    | some q => .ok (some q)
    | none => .error "could not convert value to float"
  else
    .ok none

/-- Last-wins association-list lookup: the value of the LAST entry whose
key matches, mirroring Python dict assignment followed by lookup. -/
def dictGet (d : List (String × DictVal)) (k : String) : Option DictVal :=
  match d with
  | [] => none
  | p :: rest =>
    match dictGet rest k with
    | some v => some v
    | none => if p.1 = k then some p.2 else none

/-- The `replace_zero` model validator of `IntrinioBalanceSheetData`
(source lines 389-393): `{k: None if v == 0 else v for k, v in
values.items()}`. -/
def replace_zero (values : List (String × DictVal)) : List (String × DictVal) :=
  values.map fun p => (p.1, if pyEqZero p.2 then DictVal.vnull else p.2)

/-- The `__alias_dict__` of `IntrinioBalanceSheetData` (source lines 48-137):
standardized field name to vendor tag, 88 entries. -/
def alias_dict : List (String × String) := [
("cash_and_cash_equivalents", "cashandequivalents"),
    ("restricted_cash", "restrictedcash"),
    ("short_term_investments", "shortterminvestments"),
    ("federal_funds_sold", "fedfundssold"),
    ("note_and_lease_receivable", "notereceivable"),
    ("interest_bearing_deposits_at_other_banks", "interestbearingdepositsatotherbanks"),
    ("accounts_receivable", "accountsreceivable"),
    ("time_deposits_placed_and_other_short_term_investments", "timedepositsplaced"),
    ("inventories", "netinventory"),
    ("trading_account_securities", "tradingaccountsecurities"),
    ("prepaid_expenses", "prepaidexpenses"),
    ("loans_and_leases", "loansandleases"),
    ("allowance_for_loan_and_lease_losses", "allowanceforloanandleaselosses"),
    ("current_deferred_refundable_income_taxes", "currentdeferredtaxassets"),
    ("other_current_assets", "othercurrentassets"),
    ("loans_and_leases_net_of_allowance", "netloansandleases"),
    ("other_current_non_operating_assets", "othercurrentnonoperatingassets"),
    ("loans_held_for_sale", "loansheldforsale"),
    ("total_current_assets", "totalcurrentassets"),
    ("accrued_investment_income", "accruedinvestmentincome"),
    ("plant_property_equipment_gross", "grossppe"),
    ("customer_and_other_receivables", "customerandotherreceivables"),
    ("accumulated_depreciation", "accumulateddepreciation"),
    ("premises_and_equipment_net", "netpremisesandequipment"),
    ("plant_property_equipment_net", "netppe"),
    ("mortgage_servicing_rights", "mortgageservicingrights"),
    ("long_term_investments", "longterminvestments"),
    ("unearned_premiums_asset", "unearnedpremiumsdebit"),
    ("non_current_note_lease_receivables", "noncurrentnotereceivables"),
    ("deferred_acquisition_cost", "deferredacquisitioncost"),
    ("goodwill", "goodwill"),
    ("separate_account_business_assets", "separateaccountbusinessassets"),
    ("intangible_assets", "intangibleassets"),
    ("non_current_deferred_refundable_income_taxes", "noncurrentdeferredtaxassets"),
    ("employee_benefit_assets", "employeebenefitassets"),
    ("other_assets", "otherassets"),
    ("other_non_current_operating_assets", "othernoncurrentassets"),
    ("total_assets", "totalassets"),
    ("other_non_current_non_operating_assets", "othernoncurrentnonoperatingassets"),
    ("non_interest_bearing_deposits", "noninterestbearingdeposits"),
    ("interest_bearing_deposits", "interestbearingdeposits"),
    ("total_non_current_assets", "totalnoncurrentassets"),
    ("federal_funds_purchased_and_securities_sold", "fedfundspurchased"),
    ("short_term_debt", "shorttermdebt"),
    ("bankers_acceptance_out_standing", "bankersacceptances"),
    ("accrued_interest_payable", "accruedinterestpayable"),
    ("accounts_payable", "accountspayable"),
    ("accrued_expenses", "accruedexpenses"),
    ("other_short_term_payables", "othershorttermpayables"),
    ("long_term_debt", "longtermdebt"),
    ("customer_deposits", "customerdeposits"),
    ("capital_lease_obligations", "capitalleaseobligations"),
    ("dividends_payable", "dividendspayable"),
    ("claims_and_claim_expense", "claimsandclaimexpenses"),
    ("current_deferred_revenue", "currentdeferredrevenue"),
    ("future_policy_benefits", "futurepolicybenefits"),
    ("current_deferred_payable_income_tax_liabilities", "currentdeferredtaxliabilities"),
    ("current_employee_benefit_liabilities", "currentemployeebenefitliabilities"),
    ("unearned_premiums_liability", "unearnedpremiumscredit"),
    ("other_taxes_payable", "othertaxespayable"),
    ("policy_holder_funds", "policyholderfunds"),
    ("other_current_liabilities", "othercurrentliabilities"),
    ("participating_policy_holder_equity", "participatingpolicyholderequity"),
    ("other_current_non_operating_liabilities", "othercurrentnonoperatingliabilities"),
    ("separate_account_business_liabilities", "separateaccountbusinessliabilities"),
    ("total_current_liabilities", "totalcurrentliabilities"),
    ("other_long_term_liabilities", "otherlongtermliabilities"),
    ("total_liabilities", "totalliabilities"),
    ("commitments_contingencies", "commitmentsandcontingencies"),
    ("asset_retirement_reserve_litigation_obligation", "assetretirementandlitigationobligation"),
    ("redeemable_non_controlling_interest", "redeemablenoncontrollinginterest"),
    ("non_current_deferred_revenue", "noncurrentdeferredrevenue"),
    ("preferred_stock", "totalpreferredequity"),
    ("common_stock", "commonequity"),
    ("non_current_deferred_payable_income_tax_liabilities", "noncurrentdeferredtaxliabilities"),
    ("non_current_employee_benefit_liabilities", "noncurrentemployeebenefitliabilities"),
    ("retained_earnings", "retainedearnings"),
    ("other_non_current_operating_liabilities", "othernoncurrentliabilities"),
    ("treasury_stock", "treasurystock"),
    ("accumulated_other_comprehensive_income", "aoci"),
    ("other_non_current_non_operating_liabilities", "othernoncurrentnonoperatingliabilities"),
    ("other_equity_adjustments", "otherequity"),
    ("total_non_current_liabilities", "totalnoncurrentliabilities"),
    ("total_common_equity", "totalcommonequity"),
    ("total_preferred_common_equity", "totalequity"),
    ("non_controlling_interest", "noncontrollinginterests"),
    ("total_equity_non_controlling_interests", "totalequityandnoncontrollinginterests"),
    ("total_liabilities_shareholders_equity", "totalliabilitiesandequity")
]

/-- The standardized-field value populated from the (zero-normalized)
constructor dict at a vendor tag: a number becomes the field's value,
anything else leaves the field unset. -/
def fieldValue (d : List (String × DictVal)) (tag : String) : Option Rat :=
  match dictGet d tag with
  | some (DictVal.vnum q) => some q
  | _ => none

/-- The output record (`IntrinioBalanceSheetData`): the three metadata
fields plus one optional numeric value per standardized field, keyed by
the standardized field name, in `alias_dict` order. -/
structure IntrinioBalanceSheetData where
  period_ending : Option DictVal
  fiscal_year : Option DictVal
  fiscal_period : Option DictVal
  fields : List (String × Option Rat)
  deriving DecidableEq, Repr

/-- Modelled from the spec: construction of `IntrinioBalanceSheetData` from
a keyword dict.  The pydantic base `Data` class of `openbb_core` is not
part of this source tree; per the spec it populates each standardized
field from the dict key equal to its vendor alias in `__alias_dict__` and
"unknown tags not present in the standardized field set are silently
dropped (no error)".  The `replace_zero` model validator (mode="before",
source lines 389-393, part of this source tree) runs on the raw dict
first. -/
def mkIntrinioBalanceSheetData (values : List (String × DictVal)) : IntrinioBalanceSheetData :=
  let d := replace_zero values
  { period_ending := dictGet d "period_ending"
    fiscal_year := dictGet d "fiscal_year"
    fiscal_period := dictGet d "fiscal_period"
    fields := alias_dict.map fun p => (p.1, fieldValue d p.2) }

/-- `IntrinioBalanceSheetQueryParams` after construction.  `period` holds
the vendor token produced by `validate_period`; `limit` is the
result-count limit inherited from the base query class (spec: a
caller-supplied positive integer bounding how many fiscal periods are
fetched). -/
structure IntrinioBalanceSheetQueryParams where
  symbol : String
  period : String
  fiscal_year : Option Int
  limit : Nat
  deriving DecidableEq, Repr

/-- The `validate_period` field validator (source lines 31-36), run after
the `Literal` type check: `v = "FY" if v == "annual" else "QTR"`. -/
def validate_period (v : String) : String :=
  if v = "annual" then "FY" else "QTR"

/-- The `handle_symbol` field validator (source lines 38-42):
`v.replace("-", ".")` — every hyphen becomes a period character. -/
def handle_symbol (v : String) : String :=
  ⟨v.data.map fun c => if c = '-' then '.' else c⟩

/-- `transform_query` (source lines 404-407): constructs the query params.
pydantic first checks the `Literal["annual", "quarter"]` annotation of
`period` (source line 25) and fails validation for any other value, then
runs the mode="after" validators `validate_period` and `handle_symbol`. -/
def transform_query (symbol period : String) (fiscal_year : Option Int) (limit : Nat) :
    Except String IntrinioBalanceSheetQueryParams :=
  if period = "annual" ∨ period = "quarter" then
    .ok { symbol := handle_symbol symbol
          period := validate_period period
          fiscal_year := fiscal_year
          limit := limit }
  else
    .error "validation error: period must be one of annual, quarter"

/-- One period descriptor from the fundamentals-listing response (the
`fundamentals_data` items consumed at source lines 435-438). -/
structure FundamentalsItem where
  fiscal_year : Int
  fiscal_period : String
  deriving DecidableEq, Repr

/-- One line item of `standardized_financials`: `{data_tag: {tag}, value}`. -/
structure LineItem where
  tag : String
  value : DictVal
  deriving DecidableEq, Repr

/-- The body of one per-period `standardized_financials` response. -/
structure StatementResponse where
  end_date : String
  fiscal_year : Int
  fiscal_period : String
  standardized_financials : List LineItem
  deriving DecidableEq, Repr

/-- The dict built by the `callback` (source lines 441-449) from one
per-period response: the raw statement handed to `transform_data`. -/
structure RawStatement where
  period_ending : String
  fiscal_year : Int
  fiscal_period : String
  financials : List LineItem
  deriving DecidableEq, Repr

/-- The `callback` of `aextract_data` (source lines 441-449). -/
def callback (r : StatementResponse) : RawStatement :=
  { period_ending := r.end_date
    fiscal_year := r.fiscal_year
    fiscal_period := r.fiscal_period
    financials := r.standardized_financials }

/-- `credentials.get("intrinio_api_key") if credentials else ""` (source
line 416): an untruthy credentials mapping (absent or empty) yields the
empty string; otherwise the lookup result, which is Python `None`
(modelled `Option.none`) when the key is missing. -/
def get_api_key (credentials : Option (List (String × String))) : Option String :=
  match credentials with
  | none => some ""
  | some m => if m = [] then some "" else m.lookup "intrinio_api_key"

/-- Python f-string rendering of the api-key value: `None` prints as
"None". -/
def fmtApiKey : Option String → String
  | some s => s
  | none => "None"

def base_url : String := "https://api-v2.intrinio.com"

def statement_code : String := "balance_sheet_statement"

/-- The fundamentals-listing URL as finally assembled at source lines
420-430: the base pieces, the optional fiscal-year query item, then the
api key. -/
def fundamentals_url_of (symbol period : String) (fiscal_year : Option Int)
    (api_key : Option String) : String :=
  base_url ++ "/companies/" ++ symbol ++ "/fundamentals?statement_code=" ++ statement_code
    ++ "&type=" ++ period
    ++ (match fiscal_year with
        | some y => "&fiscal_year=" ++ toString y
        | none => "")
    ++ "&api_key=" ++ fmtApiKey api_key

/-- The key `f"{item['fiscal_year']}-{item['fiscal_period']}"` derived per
listing item (source lines 435-438). -/
def period_key (item : FundamentalsItem) : String :=
  toString item.fiscal_year ++ "-" ++ item.fiscal_period

/-- One per-period standardized-financials URL (source lines 451-454). -/
def per_period_url (symbol : String) (period : String) (api_key : Option String) : String :=
  base_url ++ "/fundamentals/" ++ symbol ++ "-" ++ statement_code ++ "-" ++ period
    ++ "/standardized_financials?api_key=" ++ fmtApiKey api_key

/-- The observable outcome of `aextract_data`: the warnings emitted, the
query object as left after the call (the source assigns
`query.fiscal_year = 2008` in place at source line 428), the listing URL
requested, the per-period URLs requested, and the raw statements
returned. -/
structure ExtractResult where
  warnings : List String
  queryAfter : IntrinioBalanceSheetQueryParams
  fundamentals_url : String
  urls : List String
  results : List RawStatement
  deriving DecidableEq, Repr

/-- `aextract_data` (source lines 409-456).  The listing response
(`get_data_one(fundamentals_url).get("fundamentals", [])`) and the
per-period response bodies are supplied by the oracles `listing` and
`net`; `get_data_one` and `amake_requests` live in `openbb_core` /
`openbb_intrinio.utils`, outside this source tree, and per the spec
`amake_requests` returns one callback result per URL, in request order. -/
def aextract_data (query : IntrinioBalanceSheetQueryParams)
    (credentials : Option (List (String × String)))
    (listing : List FundamentalsItem)
    (net : String → StatementResponse) : ExtractResult :=
  let api_key := get_api_key credentials
  let clamp :=
    match query.fiscal_year with
    | some y =>
      if y < 2008 then
        (["Financials data is only available from 2008 and later."],
         { query with fiscal_year := some 2008 })
      else ([], query)
    | none => ([], query)
  let query1 := clamp.2
  let fiscal_periods := (listing.map period_key).take query1.limit
  let urls := fiscal_periods.map fun period => per_period_url query1.symbol period api_key
  { warnings := clamp.1
    queryAfter := query1
    fundamentals_url := fundamentals_url_of query1.symbol query1.period query1.fiscal_year api_key
    urls := urls
    results := urls.map fun u => callback (net u) }

/-- A `sub_dict` value from a coerced line value: a Python float or
`None`. -/
def odv : Option Rat → DictVal
  | some q => .vnum q
  | none => .vnull

/-- The inner loop of `transform_data` (source lines 468-474): coerce each
line item and record `(tag, value)` in `sub_dict` in order, propagating a
raised exception. -/
def coerceFinancials : List LineItem → Except String (List (String × DictVal))
  | [] => .ok []
  | li :: rest =>
    match lineValue li.value, coerceFinancials rest with
    | .ok v, .ok tail => .ok ((li.tag, odv v) :: tail)
    | .error e, _ => .error e
    | .ok _, .error e => .error e

/-- The body of `transform_data` for one raw statement (source lines
465-484): build `sub_dict` from the line items, attach the metadata keys,
apply the quarterly-period correction (source lines 480-482), and
construct the record. -/
def transform_item (query : IntrinioBalanceSheetQueryParams) (item : RawStatement) :
    Except String IntrinioBalanceSheetData :=
  match coerceFinancials item.financials with
  | .error e => .error e
  | .ok entries =>
    let sub_dict := entries ++
      [("period_ending", DictVal.vstr item.period_ending),
       ("fiscal_year", DictVal.vnum (item.fiscal_year : Rat)),
       ("fiscal_period", DictVal.vstr item.fiscal_period)]
    let sub_dict :=
      if query.period = "QTR" ∧ item.fiscal_period = "FY" then
        sub_dict ++ [("fiscal_period", DictVal.vstr "Q4")]
      else sub_dict
    .ok (mkIntrinioBalanceSheetData sub_dict)

/-- `transform_data` (source lines 458-486): one record per raw statement,
in input order. -/
def transform_data (query : IntrinioBalanceSheetQueryParams) :
    List RawStatement → Except String (List IntrinioBalanceSheetData)
  | [] => .ok []
  | item :: rest =>
    match transform_item query item, transform_data query rest with
    | .ok r, .ok rs => .ok (r :: rs)
    | .error e, _ => .error e
    | .ok _, .error e => .error e

/-- The whole fetch pipeline as wired by the base `Fetcher`: extraction
followed by transformation of its results (the query object handed to
`transform_data` is the same object `aextract_data` may have mutated). -/
def fetch (query : IntrinioBalanceSheetQueryParams)
    (credentials : Option (List (String × String)))
    (listing : List FundamentalsItem)
    (net : String → StatementResponse) :
    Except String (List IntrinioBalanceSheetData) :=
  let ext := aextract_data query credentials listing net
  transform_data ext.queryAfter ext.results


/-! ### Dictionary lemmas -/

theorem dictGet_append_some (xs ys : List (String × DictVal)) (k : String) (v : DictVal)
    (h : dictGet ys k = some v) : dictGet (xs ++ ys) k = some v := by
  induction xs with
  | nil => simpa using h
  | cons p rest ih => simp [dictGet, ih]

theorem dictGet_append_none (xs ys : List (String × DictVal)) (k : String)
    (h : dictGet ys k = none) : dictGet (xs ++ ys) k = dictGet xs k := by
  induction xs with
  | nil => simpa using h
  | cons p rest ih => simp [dictGet, ih]

theorem dictGet_eq_none_of_not_mem (d : List (String × DictVal)) (k : String)
    (h : k ∉ d.map Prod.fst) : dictGet d k = none := by
  induction d with
  | nil => rfl
  | cons p rest ih =>
    simp only [List.map_cons, List.mem_cons] at h
    push_neg at h
    have h1 : ¬(p.1 = k) := fun hh => h.1 hh.symm
    simp [dictGet, ih h.2, h1]

theorem dictGet_snoc_self (d : List (String × DictVal)) (k : String) (v : DictVal) :
    dictGet (d ++ [(k, v)]) k = some v := by
  apply dictGet_append_some
  simp [dictGet]

theorem dictGet_middle (A B : List (String × DictVal)) (tg k : String) (w : DictVal)
    (h : k ≠ tg) : dictGet (A ++ (tg, w) :: B) k = dictGet (A ++ B) k := by
  induction A with
  | nil =>
    cases hB : dictGet B k <;> simp [dictGet, hB, Ne.symm h]
  | cons p rest ih => simp [dictGet, ih]

theorem dictGet_replace_zero (d : List (String × DictVal)) (k : String) :
    dictGet (replace_zero d) k
      = (dictGet d k).map (fun v => if pyEqZero v then DictVal.vnull else v) := by
  induction d with
  | nil => rfl
  | cons p rest ih =>
    simp only [replace_zero, List.map_cons] at *
    cases h : dictGet rest k with
    | some v => simp [dictGet, ih, h]
    | none =>
      by_cases hk : p.1 = k <;> simp [dictGet, ih, h, hk]

theorem replace_zero_no_zero (d : List (String × DictVal)) (k : String) (q : Rat)
    (h : dictGet (replace_zero d) k = some (.vnum q)) : q ≠ 0 := by
  rw [dictGet_replace_zero] at h
  cases hv : dictGet d k with
  | none => rw [hv] at h; simp at h
  | some v =>
    rw [hv] at h
    simp only [Option.map_some'] at h
    intro hq
    subst hq
    by_cases hz : pyEqZero v = true
    · rw [if_pos hz] at h
      exact absurd h (by simp)
    · rw [if_neg hz] at h
      injection h with h2
      subst h2
      simp [pyEqZero] at hz

/-! ### Coercion-loop lemmas -/

theorem coerceFinancials_keys (fs : List LineItem) (entries : List (String × DictVal))
    (h : coerceFinancials fs = .ok entries) :
    entries.map Prod.fst = fs.map LineItem.tag := by
  induction fs generalizing entries with
  | nil =>
    simp only [coerceFinancials, Except.ok.injEq] at h
    subst h
    rfl
  | cons li rest ih =>
    simp only [coerceFinancials] at h
    cases h1 : lineValue li.value <;> rw [h1] at h
    · simp at h
    cases h2 : coerceFinancials rest <;> rw [h2] at h
    · simp at h
    simp only [Except.ok.injEq] at h
    subst h
    simp [ih _ h2]

theorem coerceFinancials_dictGet (fs : List LineItem) (entries : List (String × DictVal))
    (h : coerceFinancials fs = .ok entries) (tag : String) (v : DictVal)
    (hmem : LineItem.mk tag v ∈ fs)
    (hnodup : (fs.map LineItem.tag).Nodup) :
    ∃ c, lineValue v = .ok c ∧ dictGet entries tag = some (odv c) := by
  induction fs generalizing entries with
  | nil => cases hmem
  | cons li rest ih =>
    obtain ⟨ltag, lval⟩ := li
    simp only [coerceFinancials] at h
    cases h1 : lineValue lval <;> rw [h1] at h
    · simp at h
    case ok c0 =>
    cases h2 : coerceFinancials rest <;> rw [h2] at h
    · simp at h
    case ok tail =>
    simp only [Except.ok.injEq] at h
    subst h
    simp only [List.map_cons, List.nodup_cons] at hnodup
    rcases List.mem_cons.mp hmem with heq | hm
    · obtain ⟨rfl, rfl⟩ : tag = ltag ∧ v = lval := by
        injection heq with a b
        exact ⟨a, b⟩
      refine ⟨c0, h1, ?_⟩
      have hnone : dictGet tail tag = none := by
        apply dictGet_eq_none_of_not_mem
        rw [coerceFinancials_keys rest tail h2]
        exact hnodup.1
      simp [dictGet, hnone]
    · obtain ⟨c, hc, hg⟩ := ih tail h2 hm hnodup.2
      exact ⟨c, hc, by simp [dictGet, hg]⟩

/-! ### Record-field lookup lemma -/

theorem lookup_map_fst_nodup {β : Type} (l : List (String × String)) (f : String → β)
    (field tag : String) (hnd : (l.map Prod.fst).Nodup) (hmem : (field, tag) ∈ l) :
    (l.map fun p => (p.1, f p.2)).lookup field = some (f tag) := by
  induction l with
  | nil => cases hmem
  | cons p rest ih =>
    simp only [List.map_cons, List.nodup_cons] at hnd
    rcases List.mem_cons.mp hmem with heq | hm
    · subst heq
      simp [List.lookup]
    · have hne : ¬(p.1 = field) := by
        intro hh
        exact hnd.1 (hh ▸ List.mem_map.mpr ⟨(field, tag), hm, rfl⟩)
      have hbeq : (field == p.1) = false := beq_eq_false_iff_ne.mpr (fun hh => hne hh.symm)
      simp [List.lookup, hbeq, ih hnd.2 hm]


/-! ### Facts about the alias table and the line coercion -/

theorem alias_dict_keys_nodup : (alias_dict.map Prod.fst).Nodup := by decide

theorem alias_dict_snd_not_reserved :
    ∀ p ∈ alias_dict,
      p.2 ≠ "period_ending" ∧ p.2 ≠ "fiscal_year" ∧ p.2 ≠ "fiscal_period" := by decide

theorem lineValue_falsy (v : DictVal) (h : pyTruthy v = false ∨ pyEqZero v = true) :
    lineValue v = .ok none := by
  unfold lineValue
  rcases h with h | h <;> simp [h]

theorem lineValue_num (q : Rat) (h : q ≠ 0) : lineValue (.vnum q) = .ok (some q) := by
  have : (q == 0) = false := beq_eq_false_iff_ne.mpr h
  simp [lineValue, pyTruthy, pyEqZero, pyFloat, this]


/-! ### Shape of a successful per-statement transformation -/

theorem transform_item_ok_eq (query : IntrinioBalanceSheetQueryParams) (item : RawStatement)
    (entries : List (String × DictVal))
    (hE : coerceFinancials item.financials = .ok entries) :
    transform_item query item = .ok (mkIntrinioBalanceSheetData
      (if query.period = "QTR" ∧ item.fiscal_period = "FY" then
        (entries ++ [("period_ending", DictVal.vstr item.period_ending),
                     ("fiscal_year", DictVal.vnum (item.fiscal_year : Rat)),
                     ("fiscal_period", DictVal.vstr item.fiscal_period)])
          ++ [("fiscal_period", DictVal.vstr "Q4")]
       else
        entries ++ [("period_ending", DictVal.vstr item.period_ending),
                    ("fiscal_year", DictVal.vnum (item.fiscal_year : Rat)),
                    ("fiscal_period", DictVal.vstr item.fiscal_period)])) := by
  simp only [transform_item, hE]

theorem mk_fields_lookup (values : List (String × DictVal)) (field tag : String)
    (halias : (field, tag) ∈ alias_dict) :
    (mkIntrinioBalanceSheetData values).fields.lookup field
      = some (fieldValue (replace_zero values) tag) := by
  unfold mkIntrinioBalanceSheetData
  exact lookup_map_fst_nodup alias_dict _ field tag alias_dict_keys_nodup halias

/-- C1: for every line item of a raw statement whose vendor tag names a
standardized field, a raw value that is `0`, `0.0`, or empty/falsy leaves
that field of the output record unset, and every other (nonzero) numeric
raw value makes the field equal to exactly that value cast to floating
point. -/
theorem claim_C1 (query : IntrinioBalanceSheetQueryParams) (item : RawStatement)
    (rec : IntrinioBalanceSheetData) (field tag : String) (v : DictVal)
    (halias : (field, tag) ∈ alias_dict)
    (hmem : LineItem.mk tag v ∈ item.financials)
    (hnodup : (item.financials.map LineItem.tag).Nodup)
    (hok : transform_item query item = .ok rec) :
    ((pyTruthy v = false ∨ pyEqZero v = true) → rec.fields.lookup field = some none)
    ∧ (∀ q : Rat, v = .vnum q → q ≠ 0 → rec.fields.lookup field = some (some q)) := by
  cases hE : coerceFinancials item.financials with
  | error e => simp [transform_item, hE] at hok
  | ok entries =>
  rw [transform_item_ok_eq query item entries hE] at hok
  injection hok with hok
  subst hok
  obtain ⟨hr1, hr2, hr3⟩ := alias_dict_snd_not_reserved (field, tag) halias
  obtain ⟨c, hc, hg⟩ := coerceFinancials_dictGet _ _ hE tag v hmem hnodup
  set meta : List (String × DictVal) :=
    [("period_ending", DictVal.vstr item.period_ending),
     ("fiscal_year", DictVal.vnum (item.fiscal_year : Rat)),
     ("fiscal_period", DictVal.vstr item.fiscal_period)] with hmeta
  have hmetanone : dictGet meta tag = none := by
    apply dictGet_eq_none_of_not_mem
    rw [hmeta]
    simp only [List.map_cons, List.map_nil, List.mem_cons, List.not_mem_nil]
    push_neg
    exact ⟨hr1, hr2, hr3, fun h => h⟩
  have hq4none : dictGet [("fiscal_period", DictVal.vstr "Q4")] tag = none := by
    apply dictGet_eq_none_of_not_mem
    simp [hr3]
  have step1 : dictGet (entries ++ meta) tag = some (odv c) :=
    (dictGet_append_none entries meta tag hmetanone).trans hg
  have step2 : dictGet ((entries ++ meta) ++ [("fiscal_period", DictVal.vstr "Q4")]) tag
      = some (odv c) :=
    (dictGet_append_none _ _ tag hq4none).trans step1
  have main : ∀ D : List (String × DictVal), dictGet D tag = some (odv c) →
      (((pyTruthy v = false ∨ pyEqZero v = true) →
        (mkIntrinioBalanceSheetData D).fields.lookup field = some none)
       ∧ (∀ q : Rat, v = .vnum q → q ≠ 0 →
        (mkIntrinioBalanceSheetData D).fields.lookup field = some (some q))) := by
    intro D hD
    have hlook := mk_fields_lookup D field tag halias
    constructor
    · intro hfalsy
      have hcn : c = none := by
        have h2 := lineValue_falsy v hfalsy
        rw [hc] at h2
        injection h2
      subst hcn
      rw [hlook]
      simp [fieldValue, dictGet_replace_zero, hD, odv, pyEqZero]
    · rintro q rfl hq
      have hcq : c = some q := by
        have h2 := lineValue_num q hq
        rw [hc] at h2
        injection h2
      subst hcq
      rw [hlook]
      have hq0 : (q == 0) = false := beq_eq_false_iff_ne.mpr hq
      simp [fieldValue, dictGet_replace_zero, hD, odv, pyEqZero, hq0]
  by_cases hcond : query.period = "QTR" ∧ item.fiscal_period = "FY"
  · rw [if_pos hcond]
    exact main _ step2
  · rw [if_neg hcond]
    exact main _ step1

/-- Fixture record for the `claim_C1` witness: the transformation of a
one-line-item statement. -/
def recW1 : IntrinioBalanceSheetData :=
  mkIntrinioBalanceSheetData
    [("cashandequivalents", DictVal.vnum 5),
     ("period_ending", DictVal.vstr "2023-12-31"),
     ("fiscal_year", DictVal.vnum ((2023 : Int) : Rat)),
     ("fiscal_period", DictVal.vstr "FY")]

theorem claim_C1_witness :
    transform_item ⟨"AAPL", "FY", none, 5⟩
        ⟨"2023-12-31", 2023, "FY", [⟨"cashandequivalents", DictVal.vnum 5⟩]⟩ = .ok recW1
    ∧ recW1.fields.lookup "cash_and_cash_equivalents" = some (some 5) :=
  ⟨rfl,
   (claim_C1 ⟨"AAPL", "FY", none, 5⟩
      ⟨"2023-12-31", 2023, "FY", [⟨"cashandequivalents", DictVal.vnum 5⟩]⟩
      recW1 "cash_and_cash_equivalents" "cashandequivalents" (DictVal.vnum 5)
      (by decide) (by decide) (by decide) rfl).2 5 rfl (by norm_num)⟩


/-- C2: invariant — no standardized field of a constructed record ever
holds the value zero.  The record constructor's `replace_zero` pass turns
any remaining zero into unset (the defensive second pass), and the
per-line-item transformation never produces a zero from a numeric raw
value in the first place (the first pass). -/
theorem claim_C2 :
    (∀ (values : List (String × DictVal)) (p : String × Option Rat),
        p ∈ (mkIntrinioBalanceSheetData values).fields → p.2 ≠ some 0)
    ∧ (∀ q : Rat, lineValue (.vnum q) ≠ .ok (some 0)) := by
  constructor
  · intro values p hp h0
    unfold mkIntrinioBalanceSheetData at hp
    obtain ⟨a, ha, rfl⟩ := List.mem_map.mp hp
    simp only at h0
    unfold fieldValue at h0
    cases hg : dictGet (replace_zero values) a.2 with
    | none => rw [hg] at h0; simp at h0
    | some w =>
      rw [hg] at h0
      cases w with
      | vnull => simp at h0
      | vstr s => simp at h0
      | vnum q =>
        simp only [Option.some.injEq] at h0
        exact replace_zero_no_zero values a.2 q hg h0
  · intro q h
    by_cases hq : q = 0
    · subst hq
      have hz : lineValue (DictVal.vnum 0) = .ok none := by
        simp [lineValue, pyTruthy, pyEqZero]
      rw [hz] at h
      simp at h
    · rw [lineValue_num q hq] at h
      injection h with h
      injection h with h
      exact hq h

theorem claim_C2_witness :
    (("cash_and_cash_equivalents", (some (5 : Rat) : Option Rat))
        ∈ (mkIntrinioBalanceSheetData [("cashandequivalents", DictVal.vnum 5)]).fields)
    ∧ (("cash_and_cash_equivalents", (some (5 : Rat) : Option Rat)).2 ≠ some 0) :=
  ⟨by decide,
   claim_C2.1 [("cashandequivalents", DictVal.vnum 5)]
     ("cash_and_cash_equivalents", some 5) (by decide)⟩

/-- C3: under a query constructed from period "quarter", a raw statement
labelled "FY" is re-labelled "Q4" in the output record; under a query
constructed from period "annual", the "FY" label passes through
unchanged. -/
theorem claim_C3 (symbol : String) (fy : Option Int) (limit : Nat) (item : RawStatement)
    (qQ qA : IntrinioBalanceSheetQueryParams) (recQ recA : IntrinioBalanceSheetData)
    (hfp : item.fiscal_period = "FY")
    (hqQ : transform_query symbol "quarter" fy limit = .ok qQ)
    (hokQ : transform_item qQ item = .ok recQ)
    (hqA : transform_query symbol "annual" fy limit = .ok qA)
    (hokA : transform_item qA item = .ok recA) :
    recQ.fiscal_period = some (DictVal.vstr "Q4")
    ∧ recA.fiscal_period = some (DictVal.vstr "FY") := by
  have hQ : qQ = ⟨handle_symbol symbol, "QTR", fy, limit⟩ := by
    have h := hqQ
    simp [transform_query, validate_period] at h
    exact h.symm
  have hA : qA = ⟨handle_symbol symbol, "FY", fy, limit⟩ := by
    have h := hqA
    simp [transform_query, validate_period] at h
    exact h.symm
  have hmetaget : dictGet [("period_ending", DictVal.vstr item.period_ending),
      ("fiscal_year", DictVal.vnum (item.fiscal_year : Rat)),
      ("fiscal_period", DictVal.vstr item.fiscal_period)] "fiscal_period"
      = some (DictVal.vstr item.fiscal_period) := by
    simp [dictGet]
  constructor
  · cases hE : coerceFinancials item.financials with
    | error e => simp [transform_item, hE] at hokQ
    | ok entries =>
      rw [transform_item_ok_eq qQ item entries hE] at hokQ
      rw [if_pos ⟨by rw [hQ], hfp⟩] at hokQ
      injection hokQ with hokQ
      subst hokQ
      simp only [mkIntrinioBalanceSheetData]
      rw [dictGet_replace_zero, dictGet_snoc_self]
      simp [pyEqZero]
  · cases hE : coerceFinancials item.financials with
    | error e => simp [transform_item, hE] at hokA
    | ok entries =>
      rw [transform_item_ok_eq qA item entries hE] at hokA
      have hAp : qA.period = "FY" := by rw [hA]
      have hcnot : ¬(qA.period = "QTR" ∧ item.fiscal_period = "FY") := by
        rw [hAp]
        rintro ⟨h1, -⟩
        exact absurd h1 (by decide)
      rw [if_neg hcnot] at hokA
      injection hokA with hokA
      subst hokA
      simp only [mkIntrinioBalanceSheetData]
      rw [dictGet_replace_zero, dictGet_append_some _ _ _ _ hmetaget]
      simp [pyEqZero, hfp]

/-- Fixture statement for the `claim_C3` witness. -/
def itemW3 : RawStatement := ⟨"2023-12-31", 2023, "FY", []⟩

/-- Fixture record for the `claim_C3` witness: quarterly query. -/
def recW3Q : IntrinioBalanceSheetData :=
  mkIntrinioBalanceSheetData
    [("period_ending", DictVal.vstr "2023-12-31"),
     ("fiscal_year", DictVal.vnum ((2023 : Int) : Rat)),
     ("fiscal_period", DictVal.vstr "FY"),
     ("fiscal_period", DictVal.vstr "Q4")]

/-- Fixture record for the `claim_C3` witness: annual query. -/
def recW3A : IntrinioBalanceSheetData :=
  mkIntrinioBalanceSheetData
    [("period_ending", DictVal.vstr "2023-12-31"),
     ("fiscal_year", DictVal.vnum ((2023 : Int) : Rat)),
     ("fiscal_period", DictVal.vstr "FY")]

theorem claim_C3_witness :
    itemW3.fiscal_period = "FY"
    ∧ transform_query "AAPL" "quarter" none 5 = .ok ⟨"AAPL", "QTR", none, 5⟩
    ∧ transform_item ⟨"AAPL", "QTR", none, 5⟩ itemW3 = .ok recW3Q
    ∧ recW3Q.fiscal_period = some (DictVal.vstr "Q4")
    ∧ recW3A.fiscal_period = some (DictVal.vstr "FY") :=
  ⟨rfl, rfl, rfl,
   (claim_C3 "AAPL" none 5 itemW3 ⟨"AAPL", "QTR", none, 5⟩ ⟨"AAPL", "FY", none, 5⟩
      recW3Q recW3A rfl rfl rfl rfl rfl).1,
   (claim_C3 "AAPL" none 5 itemW3 ⟨"AAPL", "QTR", none, 5⟩ ⟨"AAPL", "FY", none, 5⟩
      recW3Q recW3A rfl rfl rfl rfl rfl).2⟩


/-- C5: query construction maps period "annual" to the vendor token "FY"
and "quarter" to "QTR", and fails with a validation error for every other
period value. -/
theorem claim_C5 :
    (∀ (s : String) (fy : Option Int) (l : Nat) (q : IntrinioBalanceSheetQueryParams),
        transform_query s "annual" fy l = .ok q → q.period = "FY")
    ∧ (∀ (s : String) (fy : Option Int) (l : Nat) (q : IntrinioBalanceSheetQueryParams),
        transform_query s "quarter" fy l = .ok q → q.period = "QTR")
    ∧ (∀ (s p : String) (fy : Option Int) (l : Nat), p ≠ "annual" → p ≠ "quarter" →
        ∀ q : IntrinioBalanceSheetQueryParams, transform_query s p fy l ≠ .ok q) := by
  refine ⟨?_, ?_, ?_⟩
  · intro s fy l q h
    simp [transform_query, validate_period] at h
    rw [← h]
  · intro s fy l q h
    simp [transform_query, validate_period] at h
    rw [← h]
  · intro s p fy l h1 h2 q h
    simp [transform_query, h1, h2] at h

theorem claim_C5_witness :
    transform_query "AAPL" "annual" none 5 = .ok ⟨"AAPL", "FY", none, 5⟩
    ∧ (⟨"AAPL", "FY", none, 5⟩ : IntrinioBalanceSheetQueryParams).period = "FY"
    ∧ transform_query "AAPL" "quarter" none 5 = .ok ⟨"AAPL", "QTR", none, 5⟩
    ∧ (⟨"AAPL", "QTR", none, 5⟩ : IntrinioBalanceSheetQueryParams).period = "QTR"
    ∧ ("monthly" : String) ≠ "annual"
    ∧ ("monthly" : String) ≠ "quarter"
    ∧ transform_query "AAPL" "monthly" none 5 ≠ .ok ⟨"AAPL", "QTR", none, 5⟩ :=
  ⟨rfl,
   claim_C5.1 "AAPL" none 5 ⟨"AAPL", "FY", none, 5⟩ rfl,
   rfl,
   claim_C5.2.1 "AAPL" none 5 ⟨"AAPL", "QTR", none, 5⟩ rfl,
   by decide, by decide,
   claim_C5.2.2 "AAPL" "monthly" none 5 (by decide) (by decide) ⟨"AAPL", "QTR", none, 5⟩⟩

/-- C6: query construction replaces every hyphen in the symbol with a
period character and leaves hyphen-free symbols unchanged ("BRK-B" becomes
"BRK.B"). -/
theorem claim_C6 :
    (∀ (s p : String) (fy : Option Int) (l : Nat) (q : IntrinioBalanceSheetQueryParams),
        transform_query s p fy l = .ok q → q.symbol = handle_symbol s)
    ∧ (∀ s : String, '-' ∉ (handle_symbol s).data)
    ∧ (∀ (s : String) (i : Nat) (h1 : i < s.data.length)
         (h2 : i < (handle_symbol s).data.length),
        (handle_symbol s).data.get ⟨i, h2⟩
          = if s.data.get ⟨i, h1⟩ = '-' then '.' else s.data.get ⟨i, h1⟩)
    ∧ (∀ s : String, '-' ∉ s.data → handle_symbol s = s)
    ∧ handle_symbol "BRK-B" = "BRK.B" := by
  have hmap : ∀ l : List Char, '-' ∉ l →
      l.map (fun c => if c = '-' then '.' else c) = l := by
    intro l hl
    induction l with
    | nil => rfl
    | cons a t ih =>
      simp only [List.mem_cons] at hl
      push_neg at hl
      have ha : ¬(a = '-') := fun hh => hl.1 hh.symm
      simp [ha, ih hl.2]
  refine ⟨?_, ?_, ?_, ?_, by decide⟩
  · intro s p fy l q h
    unfold transform_query at h
    split at h
    · injection h with h
      rw [← h]
    · exact absurd h (by simp)
  · intro s hmem
    have hdata : (handle_symbol s).data
        = s.data.map (fun c => if c = '-' then '.' else c) := rfl
    rw [hdata] at hmem
    rcases List.mem_map.mp hmem with ⟨c, hc, hfc⟩
    by_cases h : c = '-'
    · rw [if_pos h] at hfc
      exact absurd hfc (by decide)
    · rw [if_neg h] at hfc
      exact h hfc
  · intro s i h1 h2
    have hdata : (handle_symbol s).data
        = s.data.map (fun c => if c = '-' then '.' else c) := rfl
    simp only [List.get_eq_getElem, hdata, List.getElem_map]
  · intro s hno
    obtain ⟨l⟩ := s
    show (⟨l.map (fun c => if c = '-' then '.' else c)⟩ : String) = ⟨l⟩
    rw [hmap l hno]

theorem claim_C6_witness :
    transform_query "BRK-B" "annual" none 2 = .ok ⟨"BRK.B", "FY", none, 2⟩
    ∧ (⟨"BRK.B", "FY", none, 2⟩ : IntrinioBalanceSheetQueryParams).symbol
        = handle_symbol "BRK-B"
    ∧ ('-' ∉ ("AAPL" : String).data)
    ∧ handle_symbol "AAPL" = "AAPL" :=
  ⟨rfl,
   claim_C6.1 "BRK-B" "annual" none 2 ⟨"BRK.B", "FY", none, 2⟩ rfl,
   by decide,
   claim_C6.2.2.2.1 "AAPL" (by decide)⟩

/-- Fixture per-period oracle for witnesses whose listing is empty. -/
def netTriv : String → StatementResponse := fun _ => ⟨"", 0, "", []⟩

/-- C7: a provided fiscal year below 2008 is clamped to 2008 at extraction
time, with a non-fatal warning, and 2008 is the year embedded in the
listing request; a fiscal year of 2008 or later passes through unchanged
with no warning; and query construction itself does not clamp (the
below-floor value is stored in the query unchanged). -/
theorem claim_C7 (query : IntrinioBalanceSheetQueryParams)
    (credentials : Option (List (String × String)))
    (listing : List FundamentalsItem) (net : String → StatementResponse) :
    (∀ y : Int, query.fiscal_year = some y → y < 2008 →
      (aextract_data query credentials listing net).warnings
          = ["Financials data is only available from 2008 and later."]
        ∧ (aextract_data query credentials listing net).queryAfter.fiscal_year = some 2008
        ∧ (aextract_data query credentials listing net).fundamentals_url
            = fundamentals_url_of query.symbol query.period (some 2008)
                (get_api_key credentials))
    ∧ (∀ y : Int, query.fiscal_year = some y → 2008 ≤ y →
      (aextract_data query credentials listing net).warnings = []
        ∧ (aextract_data query credentials listing net).queryAfter.fiscal_year = some y
        ∧ (aextract_data query credentials listing net).fundamentals_url
            = fundamentals_url_of query.symbol query.period (some y)
                (get_api_key credentials))
    ∧ (∀ (s p : String) (fy : Option Int) (l : Nat)
         (q : IntrinioBalanceSheetQueryParams),
        transform_query s p fy l = .ok q → q.fiscal_year = fy) := by
  refine ⟨?_, ?_, ?_⟩
  · intro y hy hlt
    refine ⟨?_, ?_, ?_⟩ <;> simp [aextract_data, hy, hlt]
  · intro y hy hge
    have hnlt : ¬(y < 2008) := not_lt.mpr hge
    refine ⟨?_, ?_, ?_⟩ <;> simp [aextract_data, hy, hnlt]
  · intro s p fy l q h
    unfold transform_query at h
    split at h
    · injection h with h
      rw [← h]
    · exact absurd h (by simp)

theorem claim_C7_witness :
    ((⟨"AAPL", "FY", some 2007, 5⟩ : IntrinioBalanceSheetQueryParams).fiscal_year
        = some 2007)
    ∧ ((2007 : Int) < 2008)
    ∧ (aextract_data ⟨"AAPL", "FY", some 2007, 5⟩ none [] netTriv).warnings
        = ["Financials data is only available from 2008 and later."]
    ∧ (aextract_data ⟨"AAPL", "FY", some 2007, 5⟩ none [] netTriv).queryAfter.fiscal_year
        = some 2008
    ∧ (aextract_data ⟨"AAPL", "FY", some 2012, 5⟩ none [] netTriv).warnings = []
    ∧ (aextract_data ⟨"AAPL", "FY", some 2012, 5⟩ none [] netTriv).queryAfter.fiscal_year
        = some 2012 :=
  ⟨rfl, by decide,
   ((claim_C7 ⟨"AAPL", "FY", some 2007, 5⟩ none [] netTriv).1 2007 rfl (by decide)).1,
   ((claim_C7 ⟨"AAPL", "FY", some 2007, 5⟩ none [] netTriv).1 2007 rfl (by decide)).2.1,
   ((claim_C7 ⟨"AAPL", "FY", some 2012, 5⟩ none [] netTriv).2.1 2012 rfl (by decide)).1,
   ((claim_C7 ⟨"AAPL", "FY", some 2012, 5⟩ none [] netTriv).2.1 2012 rfl (by decide)).2.1⟩

/-- C8 counterexample: the claim that no pipeline stage after query
construction modifies any field of the query object is false — with
`fiscal_year = 2007`, extraction overwrites the query's `fiscal_year` with
2008 in place (source line 428: `query.fiscal_year = 2008`). -/
theorem claim_C8_counterexample :
    transform_query "AAPL" "annual" (some 2007) 5
      = .ok ⟨"AAPL", "FY", some 2007, 5⟩
    ∧ (aextract_data ⟨"AAPL", "FY", some 2007, 5⟩ none [] netTriv).queryAfter
        ≠ ⟨"AAPL", "FY", some 2007, 5⟩ :=
  ⟨rfl, by decide⟩

/-- C8 (amended): the query object is left unmodified by extraction and
transformation, with a single exception — when `fiscal_year` was provided
and is below 2008, extraction overwrites it with 2008; `symbol`, `period`
and `limit` are never modified, and transformation (a pure function of the
query) modifies nothing. -/
theorem claim_C8 (query : IntrinioBalanceSheetQueryParams)
    (credentials : Option (List (String × String)))
    (listing : List FundamentalsItem) (net : String → StatementResponse) :
    (aextract_data query credentials listing net).queryAfter.symbol = query.symbol
    ∧ (aextract_data query credentials listing net).queryAfter.period = query.period
    ∧ (aextract_data query credentials listing net).queryAfter.limit = query.limit
    ∧ (∀ y : Int, query.fiscal_year = some y → y < 2008 →
        (aextract_data query credentials listing net).queryAfter
          = { query with fiscal_year := some 2008 })
    ∧ ((∀ y : Int, query.fiscal_year = some y → 2008 ≤ y) →
        (aextract_data query credentials listing net).queryAfter = query) := by
  have hQA : (aextract_data query credentials listing net).queryAfter
      = (match query.fiscal_year with
         | some y => if y < 2008 then { query with fiscal_year := some 2008 } else query
         | none => query) := by
    cases hfy : query.fiscal_year with
    | none => simp [aextract_data, hfy]
    | some y => by_cases hlt : y < 2008 <;> simp [aextract_data, hfy, hlt]
  rw [hQA]
  refine ⟨?_, ?_, ?_, ?_, ?_⟩
  · cases query.fiscal_year with
    | none => rfl
    | some y => by_cases hlt : y < 2008 <;> simp [hlt]
  · cases query.fiscal_year with
    | none => rfl
    | some y => by_cases hlt : y < 2008 <;> simp [hlt]
  · cases query.fiscal_year with
    | none => rfl
    | some y => by_cases hlt : y < 2008 <;> simp [hlt]
  · intro y hy hlt
    rw [hy]
    simp [hlt]
  · intro hge
    cases hfy : query.fiscal_year with
    | none => rfl
    | some y =>
      have := hge y hfy
      simp [not_lt.mpr this]

theorem claim_C8_witness :
    ((⟨"AAPL", "FY", some 2012, 5⟩ : IntrinioBalanceSheetQueryParams).fiscal_year
        = some 2012)
    ∧ (aextract_data ⟨"AAPL", "FY", some 2012, 5⟩ none [] netTriv).queryAfter
        = ⟨"AAPL", "FY", some 2012, 5⟩
    ∧ (aextract_data ⟨"AAPL", "FY", some 2007, 5⟩ none [] netTriv).queryAfter
        = ⟨"AAPL", "FY", some 2008, 5⟩ :=
  ⟨rfl,
   (claim_C8 ⟨"AAPL", "FY", some 2012, 5⟩ none [] netTriv).2.2.2.2
     (fun y hy => by
       injection hy with h
       subst h
       decide),
   (claim_C8 ⟨"AAPL", "FY", some 2007, 5⟩ none [] netTriv).2.2.2.1 2007 rfl (by decide)⟩

/-- The per-period URL list of an extraction, in terms of the original
query's fields (the fiscal-year clamp changes neither `symbol` nor
`limit`). -/
theorem aextract_urls (query : IntrinioBalanceSheetQueryParams)
    (credentials : Option (List (String × String)))
    (listing : List FundamentalsItem) (net : String → StatementResponse) :
    (aextract_data query credentials listing net).urls
      = ((listing.map period_key).take query.limit).map
          (fun p => per_period_url query.symbol p (get_api_key credentials)) := by
  cases hfy : query.fiscal_year with
  | none => simp [aextract_data, hfy]
  | some y => by_cases hlt : y < 2008 <;> simp [aextract_data, hfy, hlt]

/-- C10: extraction never fails because of absent credentials — the URLs
are built with an empty api key when the credentials mapping is absent or
empty, with the null lookup result (rendered "None") when the mapping
lacks the key, and the per-period requests are issued (one per retained
listing entry) in every case. -/
theorem claim_C10 (query : IntrinioBalanceSheetQueryParams)
    (listing : List FundamentalsItem) (net : String → StatementResponse) :
    (∀ credentials, (aextract_data query credentials listing net).urls.length
        = min query.limit listing.length)
    ∧ (aextract_data query none listing net).urls
        = ((listing.map period_key).take query.limit).map
            (fun p => per_period_url query.symbol p (some ""))
    ∧ (aextract_data query (some []) listing net).urls
        = ((listing.map period_key).take query.limit).map
            (fun p => per_period_url query.symbol p (some ""))
    ∧ (∀ m : List (String × String), m ≠ [] → m.lookup "intrinio_api_key" = none →
        (aextract_data query (some m) listing net).urls
          = ((listing.map period_key).take query.limit).map
              (fun p => per_period_url query.symbol p none))
    ∧ fmtApiKey none = "None" := by
  refine ⟨?_, ?_, ?_, ?_, rfl⟩
  · intro credentials
    rw [aextract_urls]
    simp [List.length_take]
  · rw [aextract_urls]
    simp [get_api_key]
  · rw [aextract_urls]
    simp [get_api_key]
  · intro m hm hlook
    rw [aextract_urls]
    simp [get_api_key, hm, hlook]

theorem claim_C10_witness :
    ((aextract_data ⟨"AAPL", "FY", none, 2⟩ none
        [⟨2023, "FY"⟩, ⟨2022, "FY"⟩, ⟨2021, "FY"⟩] netTriv).urls.length = min 2 3)
    ∧ ([("other_key", "x")] : List (String × String)) ≠ []
    ∧ ([("other_key", "x")] : List (String × String)).lookup "intrinio_api_key" = none
    ∧ (aextract_data ⟨"AAPL", "FY", none, 2⟩ (some [("other_key", "x")])
        [⟨2023, "FY"⟩, ⟨2022, "FY"⟩, ⟨2021, "FY"⟩] netTriv).urls
        = (([⟨2023, "FY"⟩, ⟨2022, "FY"⟩, ⟨2021, "FY"⟩]
            : List FundamentalsItem).map period_key |>.take 2).map
            (fun p => per_period_url "AAPL" p none) :=
  ⟨(claim_C10 ⟨"AAPL", "FY", none, 2⟩
      [⟨2023, "FY"⟩, ⟨2022, "FY"⟩, ⟨2021, "FY"⟩] netTriv).1 none,
   by decide, by decide,
   (claim_C10 ⟨"AAPL", "FY", none, 2⟩
      [⟨2023, "FY"⟩, ⟨2022, "FY"⟩, ⟨2021, "FY"⟩] netTriv).2.2.2.1
     [("other_key", "x")] (by decide) (by decide)⟩


/-- The raw statements of an extraction: one callback result per retained
listing entry, in listing order. -/
theorem aextract_results (query : IntrinioBalanceSheetQueryParams)
    (credentials : Option (List (String × String)))
    (listing : List FundamentalsItem) (net : String → StatementResponse) :
    (aextract_data query credentials listing net).results
      = ((listing.map period_key).take query.limit).map
          (fun p => callback (net (per_period_url query.symbol p
            (get_api_key credentials)))) := by
  have h : (aextract_data query credentials listing net).results
      = (aextract_data query credentials listing net).urls.map
          (fun u => callback (net u)) := by
    cases hfy : query.fiscal_year with
    | none => simp [aextract_data, hfy]
    | some y => by_cases hlt : y < 2008 <;> simp [aextract_data, hfy, hlt]
  rw [h, aextract_urls, List.map_map]
  rfl

/-- A successful `transform_data` run yields one record per raw statement,
in order: the lengths agree and the i-th record is the transformation of
the i-th statement. -/
theorem transform_data_ok (query : IntrinioBalanceSheetQueryParams)
    (xs : List RawStatement) (rs : List IntrinioBalanceSheetData)
    (h : transform_data query xs = .ok rs) :
    rs.length = xs.length
    ∧ ∀ (i : Nat) (hx : i < xs.length) (hr : i < rs.length),
        transform_item query (xs.get ⟨i, hx⟩) = .ok (rs.get ⟨i, hr⟩) := by
  induction xs generalizing rs with
  | nil =>
    simp only [transform_data, Except.ok.injEq] at h
    subst h
    exact ⟨rfl, fun i hx _ => absurd hx (by simp)⟩
  | cons item rest ih =>
    simp only [transform_data] at h
    cases h1 : transform_item query item <;> rw [h1] at h
    · simp at h
    case ok r =>
    cases h2 : transform_data query rest <;> rw [h2] at h
    · simp at h
    case ok rs0 =>
    simp only [Except.ok.injEq] at h
    subst h
    obtain ⟨hlen, hidx⟩ := ih rs0 h2
    refine ⟨by simp [hlen], ?_⟩
    intro i hx hr
    cases i with
    | zero => simpa using h1
    | succ n =>
      simp only [List.get_cons_succ]
      exact hidx n (by simpa using hx) (by simpa using hr)

/-- C4: the extractor derives one period key per listing descriptor in
vendor order and truncates to at most `limit` entries before issuing any
per-period request, so exactly `min limit n` per-period URLs are requested
and `min limit n` raw statements come back; a successful transformation of
those statements yields exactly one output record per retained descriptor,
in the order of the truncated listing (record i is the transformation of
the response for the i-th retained period key). -/
theorem claim_C4 (query : IntrinioBalanceSheetQueryParams)
    (credentials : Option (List (String × String)))
    (listing : List FundamentalsItem) (net : String → StatementResponse) :
    (aextract_data query credentials listing net).urls.length
        = min query.limit listing.length
    ∧ (aextract_data query credentials listing net).results.length
        = min query.limit listing.length
    ∧ (∀ recs : List IntrinioBalanceSheetData,
        transform_data (aextract_data query credentials listing net).queryAfter
            (aextract_data query credentials listing net).results = .ok recs →
          recs.length = min query.limit listing.length
          ∧ (∀ (i : Nat) (hi : i < recs.length)
               (hj : i < ((listing.map period_key).take query.limit).length),
              transform_item (aextract_data query credentials listing net).queryAfter
                (callback (net (per_period_url query.symbol
                  (((listing.map period_key).take query.limit).get ⟨i, hj⟩)
                  (get_api_key credentials))))
                = .ok (recs.get ⟨i, hi⟩))) := by
  have hulen : (aextract_data query credentials listing net).urls.length
      = min query.limit listing.length := by
    rw [aextract_urls]
    simp [List.length_take]
  have hrlen : (aextract_data query credentials listing net).results.length
      = min query.limit listing.length := by
    rw [aextract_results]
    simp [List.length_take]
  refine ⟨hulen, hrlen, ?_⟩
  intro recs hok
  obtain ⟨hlen, hidx⟩ := transform_data_ok _ _ _ hok
  refine ⟨by rw [hlen, hrlen], ?_⟩
  intro i hi hj
  have hres := aextract_results query credentials listing net
  have hx : i < (aextract_data query credentials listing net).results.length := by
    rw [hres]
    simpa using hj
  have harg : (aextract_data query credentials listing net).results.get ⟨i, hx⟩
      = callback (net (per_period_url query.symbol
          (((listing.map period_key).take query.limit).get ⟨i, hj⟩)
          (get_api_key credentials))) := by
    rw [List.get_eq_getElem, List.getElem_of_eq hres, List.getElem_map,
      List.get_eq_getElem]
  have hmain := hidx i hx hi
  rw [harg] at hmain
  exact hmain

/-- Fixture query for the `claim_C4` witness (the construction result for
symbol "BRK-B", period "annual", limit 2). -/
def queryW4 : IntrinioBalanceSheetQueryParams := ⟨"BRK.B", "FY", none, 2⟩

/-- Fixture listing of three period descriptors for the `claim_C4`
witness. -/
def listingW4 : List FundamentalsItem := [⟨2023, "FY"⟩, ⟨2022, "FY"⟩, ⟨2021, "FY"⟩]

/-- Fixture per-period oracle for the `claim_C4` witness. -/
def netW4 : String → StatementResponse := fun u =>
  if u = per_period_url "BRK.B" "2023-FY" (some "") then
    ⟨"2023-12-31", 2023, "FY", [⟨"totalassets", DictVal.vnum 10⟩]⟩
  else
    ⟨"2022-12-31", 2022, "FY", [⟨"totalassets", DictVal.vnum 7⟩]⟩

/-- Fixture output records for the `claim_C4` witness. -/
def recsW4 : List IntrinioBalanceSheetData :=
  [mkIntrinioBalanceSheetData
      [("totalassets", DictVal.vnum 10),
       ("period_ending", DictVal.vstr "2023-12-31"),
       ("fiscal_year", DictVal.vnum ((2023 : Int) : Rat)),
       ("fiscal_period", DictVal.vstr "FY")],
   mkIntrinioBalanceSheetData
      [("totalassets", DictVal.vnum 7),
       ("period_ending", DictVal.vstr "2022-12-31"),
       ("fiscal_year", DictVal.vnum ((2022 : Int) : Rat)),
       ("fiscal_period", DictVal.vstr "FY")]]

theorem claim_C4_witness :
    transform_query "BRK-B" "annual" none 2 = .ok queryW4
    ∧ transform_data (aextract_data queryW4 none listingW4 netW4).queryAfter
        (aextract_data queryW4 none listingW4 netW4).results = .ok recsW4
    ∧ recsW4.length = min 2 3 :=
  ⟨rfl, rfl,
   ((claim_C4 queryW4 none listingW4 netW4).2.2 recsW4 rfl).1⟩


/-! ### Lemmas for unknown-tag insertion (C9) -/

theorem coerce_append (xs ys : List LineItem) :
    coerceFinancials (xs ++ ys)
      = match coerceFinancials xs, coerceFinancials ys with
        | .ok a, .ok b => .ok (a ++ b)
        | .error e, _ => .error e
        | .ok _, .error e => .error e := by
  induction xs with
  | nil =>
    simp only [List.nil_append, coerceFinancials]
    cases coerceFinancials ys <;> rfl
  | cons li rest ih =>
    cases h1 : lineValue li.value with
    | error e => simp [coerceFinancials, h1]
    | ok v =>
      cases h2 : coerceFinancials rest with
      | error e =>
        have hrest : coerceFinancials (rest ++ ys) = .error e := by rw [ih, h2]
        simp [coerceFinancials, h1, h2, hrest]
      | ok a =>
        cases h3 : coerceFinancials ys with
        | error e =>
          have hrest : coerceFinancials (rest ++ ys) = .error e := by
            rw [ih, h2, h3]
          simp [coerceFinancials, h1, h2, h3, hrest]
        | ok b =>
          have hrest : coerceFinancials (rest ++ ys) = .ok (a ++ b) := by
            rw [ih, h2, h3]
          simp [coerceFinancials, h1, h2, h3, hrest]

theorem dictGet_RZ_right (A M : List (String × DictVal)) (k : String) (m : DictVal)
    (h : dictGet M k = some m) :
    dictGet (replace_zero (A ++ M)) k
      = some (if pyEqZero m then DictVal.vnull else m) := by
  rw [dictGet_replace_zero, dictGet_append_some A M k m h]
  rfl

theorem dictGet_RZ_of_right (A B M : List (String × DictVal)) (k : String) (m : DictVal)
    (h : dictGet M k = some m) :
    dictGet (replace_zero (A ++ M)) k = dictGet (replace_zero (B ++ M)) k := by
  rw [dictGet_RZ_right A M k m h, dictGet_RZ_right B M k m h]

theorem dictGet_RZ_middle (A B : List (String × DictVal)) (tg k : String) (w : DictVal)
    (hk : k ≠ tg) :
    dictGet (replace_zero (A ++ (tg, w) :: B)) k
      = dictGet (replace_zero (A ++ B)) k := by
  rw [dictGet_replace_zero, dictGet_replace_zero, dictGet_middle A B tg k w hk]

/-- Two constructor dicts that agree (after zero-normalization) on the
three metadata keys and on every vendor tag of the alias table produce the
same record — all other keys are dropped by construction. -/
theorem mk_eq_of_used (d1 d2 : List (String × DictVal))
    (hpe : dictGet (replace_zero d1) "period_ending"
        = dictGet (replace_zero d2) "period_ending")
    (hfy : dictGet (replace_zero d1) "fiscal_year"
        = dictGet (replace_zero d2) "fiscal_year")
    (hfp : dictGet (replace_zero d1) "fiscal_period"
        = dictGet (replace_zero d2) "fiscal_period")
    (hal : ∀ p ∈ alias_dict, dictGet (replace_zero d1) p.2
        = dictGet (replace_zero d2) p.2) :
    mkIntrinioBalanceSheetData d1 = mkIntrinioBalanceSheetData d2 := by
  simp only [mkIntrinioBalanceSheetData, IntrinioBalanceSheetData.mk.injEq]
  refine ⟨hpe, hfy, hfp, ?_⟩
  apply List.map_congr_left
  intro p hp
  have h := hal p hp
  unfold fieldValue
  rw [h]

/-- C9: a line item whose vendor tag is not in the standardized field set
is silently dropped — transforming a raw statement with the unknown line
item gives exactly the same result (success and record) as transforming
the statement without it, provided only that the unknown item's value
itself coerces (it is not a non-numeric truthy string, which would raise
for known and unknown tags alike). -/
theorem claim_C9 (query : IntrinioBalanceSheetQueryParams)
    (item1 item2 : RawStatement) (fs1 fs2 : List LineItem)
    (tag : String) (v : DictVal) (c : Option Rat)
    (htag : tag ∉ alias_dict.map Prod.snd)
    (hv : lineValue v = .ok c)
    (hpe : item1.period_ending = item2.period_ending)
    (hfy : item1.fiscal_year = item2.fiscal_year)
    (hfp : item1.fiscal_period = item2.fiscal_period)
    (hfin1 : item1.financials = fs1 ++ ⟨tag, v⟩ :: fs2)
    (hfin2 : item2.financials = fs1 ++ fs2) :
    transform_item query item1 = transform_item query item2 := by
  cases h1 : coerceFinancials fs1 with
  | error e =>
    have hL : coerceFinancials item1.financials = .error e := by
      rw [hfin1, coerce_append, h1]
    have hR : coerceFinancials item2.financials = .error e := by
      rw [hfin2, coerce_append, h1]
    simp [transform_item, hL, hR]
  | ok E1 =>
    cases h2 : coerceFinancials fs2 with
    | error e =>
      have hcons : coerceFinancials (⟨tag, v⟩ :: fs2) = .error e := by
        simp [coerceFinancials, hv, h2]
      have hL : coerceFinancials item1.financials = .error e := by
        rw [hfin1, coerce_append, h1, hcons]
      have hR : coerceFinancials item2.financials = .error e := by
        rw [hfin2, coerce_append, h1, h2]
      simp [transform_item, hL, hR]
    | ok E2 =>
      have hcons : coerceFinancials (⟨tag, v⟩ :: fs2)
          = .ok ((tag, odv c) :: E2) := by
        simp [coerceFinancials, hv, h2]
      have hL : coerceFinancials item1.financials
          = .ok (E1 ++ (tag, odv c) :: E2) := by
        rw [hfin1, coerce_append, h1, hcons]
      have hR : coerceFinancials item2.financials = .ok (E1 ++ E2) := by
        rw [hfin2, coerce_append, h1, h2]
      rw [transform_item_ok_eq query item1 _ hL, transform_item_ok_eq query item2 _ hR]
      rw [hpe, hfy, hfp]
      congr 1
      by_cases hcond : query.period = "QTR" ∧ item2.fiscal_period = "FY"
      · rw [if_pos hcond, if_pos hcond]
        refine mk_eq_of_used _ _ ?_ ?_ ?_ ?_
        · have := dictGet_RZ_of_right (E1 ++ (tag, odv c) :: E2) (E1 ++ E2)
            ([("period_ending", DictVal.vstr item2.period_ending),
              ("fiscal_year", DictVal.vnum (item2.fiscal_year : Rat)),
              ("fiscal_period", DictVal.vstr item2.fiscal_period)]
              ++ [("fiscal_period", DictVal.vstr "Q4")])
            "period_ending" (DictVal.vstr item2.period_ending) (by simp [dictGet])
          simpa [List.append_assoc] using this
        · have := dictGet_RZ_of_right (E1 ++ (tag, odv c) :: E2) (E1 ++ E2)
            ([("period_ending", DictVal.vstr item2.period_ending),
              ("fiscal_year", DictVal.vnum (item2.fiscal_year : Rat)),
              ("fiscal_period", DictVal.vstr item2.fiscal_period)]
              ++ [("fiscal_period", DictVal.vstr "Q4")])
            "fiscal_year" (DictVal.vnum (item2.fiscal_year : Rat)) (by simp [dictGet])
          simpa [List.append_assoc] using this
        · have := dictGet_RZ_of_right (E1 ++ (tag, odv c) :: E2) (E1 ++ E2)
            ([("period_ending", DictVal.vstr item2.period_ending),
              ("fiscal_year", DictVal.vnum (item2.fiscal_year : Rat)),
              ("fiscal_period", DictVal.vstr item2.fiscal_period)]
              ++ [("fiscal_period", DictVal.vstr "Q4")])
            "fiscal_period" (DictVal.vstr "Q4") (by simp [dictGet])
          simpa [List.append_assoc] using this
        · intro p hp
          have hne : p.2 ≠ tag := fun hh => htag (hh ▸ List.mem_map.mpr ⟨p, hp, rfl⟩)
          have := dictGet_RZ_middle E1
            (E2 ++ ([("period_ending", DictVal.vstr item2.period_ending),
                     ("fiscal_year", DictVal.vnum (item2.fiscal_year : Rat)),
                     ("fiscal_period", DictVal.vstr item2.fiscal_period)]
                    ++ [("fiscal_period", DictVal.vstr "Q4")]))
            tag p.2 (odv c) hne
          simpa [List.append_assoc] using this
      · rw [if_neg hcond, if_neg hcond]
        refine mk_eq_of_used _ _ ?_ ?_ ?_ ?_
        · have := dictGet_RZ_of_right (E1 ++ (tag, odv c) :: E2) (E1 ++ E2)
            [("period_ending", DictVal.vstr item2.period_ending),
             ("fiscal_year", DictVal.vnum (item2.fiscal_year : Rat)),
             ("fiscal_period", DictVal.vstr item2.fiscal_period)]
            "period_ending" (DictVal.vstr item2.period_ending) (by simp [dictGet])
          simpa [List.append_assoc] using this
        · have := dictGet_RZ_of_right (E1 ++ (tag, odv c) :: E2) (E1 ++ E2)
            [("period_ending", DictVal.vstr item2.period_ending),
             ("fiscal_year", DictVal.vnum (item2.fiscal_year : Rat)),
             ("fiscal_period", DictVal.vstr item2.fiscal_period)]
            "fiscal_year" (DictVal.vnum (item2.fiscal_year : Rat)) (by simp [dictGet])
          simpa [List.append_assoc] using this
        · have := dictGet_RZ_of_right (E1 ++ (tag, odv c) :: E2) (E1 ++ E2)
            [("period_ending", DictVal.vstr item2.period_ending),
             ("fiscal_year", DictVal.vnum (item2.fiscal_year : Rat)),
             ("fiscal_period", DictVal.vstr item2.fiscal_period)]
            "fiscal_period" (DictVal.vstr item2.fiscal_period) (by simp [dictGet])
          simpa [List.append_assoc] using this
        · intro p hp
          have hne : p.2 ≠ tag := fun hh => htag (hh ▸ List.mem_map.mpr ⟨p, hp, rfl⟩)
          have := dictGet_RZ_middle E1
            (E2 ++ [("period_ending", DictVal.vstr item2.period_ending),
                    ("fiscal_year", DictVal.vnum (item2.fiscal_year : Rat)),
                    ("fiscal_period", DictVal.vstr item2.fiscal_period)])
            tag p.2 (odv c) hne
          simpa [List.append_assoc] using this

/-- Fixture raw statement with an unknown vendor tag for the `claim_C9`
witness. -/
def itemW9a : RawStatement :=
  ⟨"2023-12-31", 2023, "FY",
   [⟨"cashandequivalents", DictVal.vnum 5⟩, ⟨"unknowntag", DictVal.vnum 7⟩]⟩

/-- Fixture raw statement without the unknown vendor tag for the
`claim_C9` witness. -/
def itemW9b : RawStatement :=
  ⟨"2023-12-31", 2023, "FY", [⟨"cashandequivalents", DictVal.vnum 5⟩]⟩

theorem claim_C9_witness :
    ("unknowntag" ∉ alias_dict.map Prod.snd)
    ∧ lineValue (DictVal.vnum 7) = .ok (some 7)
    ∧ transform_item ⟨"AAPL", "FY", none, 5⟩ itemW9a
        = transform_item ⟨"AAPL", "FY", none, 5⟩ itemW9b :=
  ⟨by decide, rfl,
   claim_C9 ⟨"AAPL", "FY", none, 5⟩ itemW9a itemW9b
     [⟨"cashandequivalents", DictVal.vnum 5⟩] [] "unknowntag" (DictVal.vnum 7) (some 7)
     (by decide) rfl rfl rfl rfl rfl rfl⟩

end OpenBBIntrinio
